import Mathlib

/-!
Verification development for the trustbloc DID-method client
(pkg/did/client.go): a shallow embedding of the request-building and
commitment/reveal-value pipeline, with external collaborators (the
Sidetree core library, JSON marshalling, HTTP transport, endpoint
discovery) abstracted as an environment of fallible functions.
-/

namespace TrustblocDID

/-- models.Endpoint: an endpoint record carrying a URL. -/
structure Endpoint where
  url : String
deriving DecidableEq, Repr

/-- models.SidetreeConfig: the per-endpoint Sidetree configuration. -/
structure SidetreeConfig where
  multiHashAlgorithm : Nat
deriving DecidableEq, Repr

/-- jws.JWK: a JSON Web Key (public), as used by the sidetree-core library. -/
structure JWK where
  kty : String
  crv : String
  x : String
  y : String
deriving DecidableEq, Repr

/-- An opaque crypto.PublicKey value (raw public key material). -/
structure PubKeyVal where
  data : List Nat
deriving DecidableEq, Repr

/-- crypto.PrivateKey: the dynamic type of the signing key, as dispatched by
the type switch in getSigner: an ecdsa.PrivateKey over some curve, an
ed25519.PrivateKey, or a value of any other concrete type. -/
inductive PrivKey where
  | ecdsaKey (curve : String) (d : Nat) (pub : PubKeyVal)
  | ed25519Key (d : Nat) (pub : PubKeyVal)
  | otherKey (description : String)
deriving DecidableEq, Repr

/-- The public half of a private key, as produced by key.Public(). -/
def PrivKey.publicVal : PrivKey → PubKeyVal
  | .ecdsaKey _ _ pub => pub
  | .ed25519Key _ pub => pub
  | .otherKey _ => ⟨[]⟩

/-- doc.PublicKey: a public-key entry of a DID document; Value may be raw
bytes or a serialized JWK. -/
structure PublicKey where
  id : String
  keyType : String
  recovery : Bool
  updateFlag : Bool
  value : List Nat
deriving DecidableEq, Repr

/-- doc.Service: a service entry of a DID document (opaque here). -/
structure Service where
  id : String
  serviceType : String
  serviceEndpoint : String
deriving DecidableEq, Repr

/-- doc.Doc: the DID document assembled by the recover builder. -/
structure Doc where
  publicKey : List PublicKey
  service : List Service
deriving DecidableEq, Repr

/-- A signer as produced by ecsigner.New / edsigner.New: the signing key
together with the fixed algorithm header and the key identifier. -/
structure Signer where
  signingKey : PrivKey
  alg : String
  keyID : String
deriving DecidableEq, Repr

/-- patch.Patch, tagged by its action category; the payload is the
category-specific serialized content validated by the patch constructor. -/
inductive Patch where
  | removePublicKeys (payload : String)
  | removeServices (payload : String)
  | addServices (payload : String)
  | addPublicKeys (payload : String)
deriving DecidableEq, Repr

/-- Observable interactions of the client with the outside world, recorded
so that claims of the form "no network call occurs" are statable. -/
inductive Event where
  | endpointResolution (domain : String)
  | configFetch (url : String)
  | networkSend (url : String)
deriving DecidableEq, Repr

/-- client.UpdateRequestInfo: the struct handed to client.NewUpdateRequest. -/
structure UpdateRequestInfo where
  didSuffix : String
  revealValue : String
  updateCommitment : String
  updateKey : JWK
  patches : List Patch
  multihashCode : Nat
  signer : Signer
deriving DecidableEq, Repr

/-- client.DeactivateRequestInfo: the struct handed to
client.NewDeactivateRequest. -/
structure DeactivateRequestInfo where
  didSuffix : String
  revealValue : String
  recoveryKey : JWK
  signer : Signer
deriving DecidableEq, Repr

/-- client.RecoverRequestInfo: the struct handed to client.NewRecoverRequest. -/
structure RecoverRequestInfo where
  didSuffix : String
  revealValue : String
  opaqueDocument : String
  recoveryCommitment : String
  updateCommitment : String
  multihashCode : Nat
  recoveryKey : JWK
  signer : Signer
deriving DecidableEq, Repr

/-- update.Opts: functional options collected for UpdateDID. -/
structure UpdateOpts where
  signingKey : Option PrivKey
  signingKeyID : String
  nextUpdatePublicKey : Option PubKeyVal
  revealValue : String
  removePublicKeys : List String
  removeServices : List String
  addServices : List Service
  addPublicKeys : List PublicKey
  sidetreeEndpoints : List Endpoint
deriving Repr

/-- recovery.Opts: functional options collected for RecoverDID. -/
structure RecoverOpts where
  signingKey : Option PrivKey
  signingKeyID : String
  nextRecoveryPublicKey : Option PubKeyVal
  nextUpdatePublicKey : Option PubKeyVal
  revealValue : String
  publicKeys : List PublicKey
  services : List Service
  sidetreeEndpoints : List Endpoint
deriving Repr

/-- deactivate.Opts: functional options collected for DeactivateDID. -/
structure DeactivateOpts where
  signingKey : Option PrivKey
  signingKeyID : String
  revealValue : String
  sidetreeEndpoints : List Endpoint
deriving Repr

/-- The external collaborators of client.go, as black-box fallible
functions: the endpoint service, the config service, HTTP transport,
pubkey/commitment helpers of sidetree-core, go-jose JWK parsing, the
doc package helpers, JSON marshalling, the patch constructors, and the
sidetree-core request serializers. -/
structure Env where
  getEndpoints : String → Except String (List Endpoint)
  getSidetreeConfig : String → Except String SidetreeConfig
  sendRequest : List Nat → String → Except String (List Nat)
  getPublicKeyJWK : Option PubKeyVal → Except String JWK
  getCommitment : JWK → Nat → Except String String
  getRevealValue : JWK → Nat → Except String String
  parseJWK : List Nat → Option JWK
  jwkPublic : JWK → JWK
  getValueFromJWK : JWK → Except String (List Nat)
  docJSONBytes : Doc → Except String String
  marshalIDs : List String → Except String String
  newRemovePublicKeysPatch : String → Except String String
  newRemoveServiceEndpointsPatch : String → Except String String
  marshalRawServices : List Service → Except String String
  newAddServiceEndpointsPatch : String → Except String String
  populateRawPublicKeys : List PublicKey → Except String (List String)
  marshalRawPublicKeys : List String → Except String String
  newAddPublicKeysPatch : String → Except String String
  newUpdateRequest : UpdateRequestInfo → Except String (List Nat)
  newDeactivateRequest : DeactivateRequestInfo → Except String (List Nat)
  newRecoverRequest : RecoverRequestInfo → Except String (List Nat)

/-- defaultRevealValue (client.go:566-574): derive the reveal value from the
JWK; on failure log and return the empty string instead of an error. -/
def defaultRevealValue (env : Env) (jwk : JWK) (multihashCode : Nat) : String :=
  match env.getRevealValue jwk multihashCode with
  | .error _ => ""
  | .ok revealValue => revealValue

/-- getSigner (client.go:332-351): type-switch on the signing key; any
ecdsa key yields an ES256 signer, any ed25519 key an EdDSA signer, and
every other dynamic type (including a nil interface) is rejected. -/
def getSigner (env : Env) (signingkey : Option PrivKey) (keyID : String) :
    Except String (Signer × JWK) :=
  match signingkey with
  | some (PrivKey.ecdsaKey curve d pub) =>
    match env.getPublicKeyJWK (some pub) with
    | .error e => .error e
    | .ok updateKey =>
      .ok (⟨PrivKey.ecdsaKey curve d pub, "ES256", keyID⟩, updateKey)
  | some (PrivKey.ed25519Key d pub) =>
    match env.getPublicKeyJWK (some pub) with
    | .error e => .error e
    | .ok updateKey =>
      .ok (⟨PrivKey.ed25519Key d pub, "EdDSA", keyID⟩, updateKey)
  | _ => .error "key not supported"

/-- Characters after the last colon of a character list, if any colon
occurs; mirrors strings.LastIndex(id, ":") followed by id[p+1:]. -/
def suffixAfterLastColon : List Char → Option (List Char)
  | [] => none
  | c :: rest =>
    match suffixAfterLastColon rest with
    | some suf => some suf
    | none => if c = ':' then some rest else none

/-- getUniqueSuffix (client.go:353-360): substring after the last colon,
or an error when the identifier contains no colon. -/
def getUniqueSuffix (id : String) : Except String String :=
  match suffixAfterLastColon id.data with
  | none => .error ("unique suffix not provided in id [" ++ id ++ "]")
  | some suf => .ok (String.mk suf)

/-- createRemovePublicKeysPatch (client.go:404-411). -/
def createRemovePublicKeysPatch (env : Env) (opts : UpdateOpts) :
    Except String Patch :=
  match env.marshalIDs opts.removePublicKeys with
  | .error e => .error e
  | .ok removePubKeys =>
    match env.newRemovePublicKeysPatch removePubKeys with
    | .error e => .error e
    | .ok payload => .ok (Patch.removePublicKeys payload)

/-- createRemoveServicesPatch (client.go:413-420). -/
def createRemoveServicesPatch (env : Env) (opts : UpdateOpts) :
    Except String Patch :=
  match env.marshalIDs opts.removeServices with
  | .error e => .error e
  | .ok removeServices =>
    match env.newRemoveServiceEndpointsPatch removeServices with
    | .error e => .error e
    | .ok payload => .ok (Patch.removeServices payload)

/-- createAddServicesPatch (client.go:422-429). -/
def createAddServicesPatch (env : Env) (opts : UpdateOpts) :
    Except String Patch :=
  match env.marshalRawServices opts.addServices with
  | .error e => .error e
  | .ok addServices =>
    match env.newAddServiceEndpointsPatch addServices with
    | .error e => .error e
    | .ok payload => .ok (Patch.addServices payload)

/-- createAddPublicKeysPatch (client.go:431-443). -/
def createAddPublicKeysPatch (env : Env) (opts : UpdateOpts) :
    Except String Patch :=
  match env.populateRawPublicKeys opts.addPublicKeys with
  | .error e => .error e
  | .ok rawPublicKeys =>
    match env.marshalRawPublicKeys rawPublicKeys with
    | .error e => .error e
    | .ok addPublicKeys =>
      match env.newAddPublicKeysPatch addPublicKeys with
      | .error e => .error e
      | .ok payload => .ok (Patch.addPublicKeys payload)

/-- createUpdatePatches (client.go:362-402): emit one patch per non-empty
category in the fixed order remove-public-keys, remove-services,
add-services, add-public-keys; the first failing category aborts. -/
def createUpdatePatches (env : Env) (opts : UpdateOpts) :
    Except String (List Patch) :=
  let patches : List Patch := []
  match (if opts.removePublicKeys.length ≠ 0 then
          match createRemovePublicKeysPatch env opts with
          | .error e => .error e
          | .ok p => .ok (patches ++ [p])
        else .ok patches : Except String (List Patch)) with
  | .error e => .error e
  | .ok patches1 =>
    match (if opts.removeServices.length ≠ 0 then
            match createRemoveServicesPatch env opts with
            | .error e => .error e
            | .ok p => .ok (patches1 ++ [p])
          else .ok patches1 : Except String (List Patch)) with
    | .error e => .error e
    | .ok patches2 =>
      match (if opts.addServices.length ≠ 0 then
              match createAddServicesPatch env opts with
              | .error e => .error e
              | .ok p => .ok (patches2 ++ [p])
            else .ok patches2 : Except String (List Patch)) with
      | .error e => .error e
      | .ok patches3 =>
        match (if opts.addPublicKeys.length ≠ 0 then
                match createAddPublicKeysPatch env opts with
                | .error e => .error e
                | .ok p => .ok (patches3 ++ [p])
              else .ok patches3 : Except String (List Patch)) with
        | .error e => .error e
        | .ok patches4 => .ok patches4

/-- unwrapPubKeyJWK (client.go:239-256): if the key value parses as a JWK,
replace the value by the public value extracted from that JWK; values
that do not parse are kept unchanged (expected to be binary keys). -/
def unwrapPubKeyJWK (env : Env) (key : PublicKey) : Except String PublicKey :=
  let out := key
  match env.parseJWK out.value with
  | none => .ok out
  | some jwk =>
    match env.getValueFromJWK (env.jwkPublic jwk) with
    | .error e => .error e
    | .ok v => .ok { out with value := v }

/-- The key-unwrapping loop of buildRecoverRequest (client.go:452-459):
unwrap each supplied public key, aborting on the first failure. -/
def unwrapAll (env : Env) : List PublicKey → Except String (List PublicKey)
  | [] => .ok []
  | key :: rest =>
    match unwrapPubKeyJWK env key with
    | .error e => .error e
    | .ok parsedKey =>
      match unwrapAll env rest with
      | .error e => .error e
      | .ok parsedKeys => .ok (parsedKey :: parsedKeys)

/-- getCommitment (client.go:503-525): derive the next-recovery and
next-update commitments for a recover operation. -/
def getCommitmentPair (env : Env) (sidetreeConfig : SidetreeConfig)
    (recoverDIDOpts : RecoverOpts) : Except String (String × String) :=
  match env.getPublicKeyJWK recoverDIDOpts.nextRecoveryPublicKey with
  | .error e => .error ("failed to get next recovery key : " ++ e)
  | .ok nextRecoveryKey =>
    match env.getPublicKeyJWK recoverDIDOpts.nextUpdatePublicKey with
    | .error e => .error ("failed to get next update key : " ++ e)
    | .ok nextUpdateKey =>
      match env.getCommitment nextRecoveryKey sidetreeConfig.multiHashAlgorithm with
      | .error e => .error e
      | .ok nextRecoveryCommitment =>
        match env.getCommitment nextUpdateKey sidetreeConfig.multiHashAlgorithm with
        | .error e => .error e
        | .ok nextUpdateCommitment =>
          .ok (nextRecoveryCommitment, nextUpdateCommitment)

/-- The reveal-value selection and UpdateRequestInfo assembly of
buildUpdateRequest (client.go:259-302), up to the final serialization by
client.NewUpdateRequest. -/
def buildUpdateRequestInfo (env : Env) (did : String)
    (sidetreeConfig : SidetreeConfig) (updateDIDOpts : UpdateOpts) :
    Except String UpdateRequestInfo :=
  match env.getPublicKeyJWK updateDIDOpts.nextUpdatePublicKey with
  | .error e => .error ("failed to get next update key : " ++ e)
  | .ok nextUpdateKey =>
    match env.getCommitment nextUpdateKey sidetreeConfig.multiHashAlgorithm with
    | .error e => .error e
    | .ok nextUpdateCommitment =>
      match getSigner env updateDIDOpts.signingKey updateDIDOpts.signingKeyID with
      | .error e => .error e
      | .ok (signer, updateKey) =>
        match createUpdatePatches env updateDIDOpts with
        | .error e => .error e
        | .ok patches =>
          match getUniqueSuffix did with
          | .error e => .error e
          | .ok didSuffix =>
            let revealValue := updateDIDOpts.revealValue
            let revealValue :=
              if revealValue = "" then
                defaultRevealValue env updateKey sidetreeConfig.multiHashAlgorithm
              else revealValue
            .ok { didSuffix := didSuffix, revealValue := revealValue,
                  updateCommitment := nextUpdateCommitment,
                  updateKey := updateKey, patches := patches,
                  multihashCode := sidetreeConfig.multiHashAlgorithm,
                  signer := signer }

/-- buildUpdateRequest (client.go:259-302). -/
def buildUpdateRequest (env : Env) (did : String)
    (sidetreeConfig : SidetreeConfig) (updateDIDOpts : UpdateOpts) :
    Except String (List Nat) :=
  match buildUpdateRequestInfo env did sidetreeConfig updateDIDOpts with
  | .error e => .error e
  | .ok info => env.newUpdateRequest info

/-- The reveal-value selection and DeactivateRequestInfo assembly of
buildDeactivateRequest (client.go:305-330). -/
def buildDeactivateRequestInfo (env : Env) (did : String)
    (sidetreeConfig : SidetreeConfig) (deactivateDIDOpts : DeactivateOpts) :
    Except String DeactivateRequestInfo :=
  match getSigner env deactivateDIDOpts.signingKey deactivateDIDOpts.signingKeyID with
  | .error e => .error e
  | .ok (signer, publicKey) =>
    match getUniqueSuffix did with
    | .error e => .error e
    | .ok didSuffix =>
      let revealValue := deactivateDIDOpts.revealValue
      let revealValue :=
        if revealValue = "" then
          defaultRevealValue env publicKey sidetreeConfig.multiHashAlgorithm
        else revealValue
      .ok { didSuffix := didSuffix, revealValue := revealValue,
            recoveryKey := publicKey, signer := signer }

/-- buildDeactivateRequest (client.go:305-330). -/
def buildDeactivateRequest (env : Env) (did : String)
    (sidetreeConfig : SidetreeConfig) (deactivateDIDOpts : DeactivateOpts) :
    Except String (List Nat) :=
  match buildDeactivateRequestInfo env did sidetreeConfig deactivateDIDOpts with
  | .error e => .error e
  | .ok info => env.newDeactivateRequest info

/-- The key-unwrapping, document assembly and reveal-value selection of
buildRecoverRequest (client.go:446-501), up to the final serialization by
client.NewRecoverRequest. -/
def buildRecoverRequestInfo (env : Env) (did : String)
    (sidetreeConfig : SidetreeConfig) (recoverDIDOpts : RecoverOpts) :
    Except String RecoverRequestInfo :=
  match unwrapAll env recoverDIDOpts.publicKeys with
  | .error e => .error e
  | .ok parsedKeys =>
    let didDoc : Doc := { publicKey := parsedKeys, service := recoverDIDOpts.services }
    match env.docJSONBytes didDoc with
    | .error e => .error ("failed to get document bytes : " ++ e)
    | .ok docBytes =>
      match getCommitmentPair env sidetreeConfig recoverDIDOpts with
      | .error e => .error e
      | .ok (nextRecoveryCommitment, nextUpdateCommitment) =>
        match getSigner env recoverDIDOpts.signingKey recoverDIDOpts.signingKeyID with
        | .error e => .error e
        | .ok (signer, recoveryKey) =>
          match getUniqueSuffix did with
          | .error e => .error e
          | .ok didSuffix =>
            let revealValue := recoverDIDOpts.revealValue
            let revealValue :=
              if revealValue = "" then
                defaultRevealValue env recoveryKey sidetreeConfig.multiHashAlgorithm
              else revealValue
            .ok { didSuffix := didSuffix, revealValue := revealValue,
                  opaqueDocument := docBytes,
                  recoveryCommitment := nextRecoveryCommitment,
                  updateCommitment := nextUpdateCommitment,
                  multihashCode := sidetreeConfig.multiHashAlgorithm,
                  recoveryKey := recoveryKey, signer := signer }

/-- buildRecoverRequest (client.go:446-501); only the final serialization
error is wrapped with "failed to create sidetree request". -/
def buildRecoverRequest (env : Env) (did : String)
    (sidetreeConfig : SidetreeConfig) (recoverDIDOpts : RecoverOpts) :
    Except String (List Nat) :=
  match buildRecoverRequestInfo env did sidetreeConfig recoverDIDOpts with
  | .error e => .error e
  | .ok info =>
    match env.newRecoverRequest info with
    | .error e => .error ("failed to create sidetree request: " ++ e)
    | .ok req => .ok req

/-- validateRecoverReq (client.go:197-211). -/
def validateRecoverReq (recoverDIDOpts : RecoverOpts) : Except String Unit :=
  if recoverDIDOpts.nextRecoveryPublicKey.isNone then
    .error "next recovery public key is required"
  else if recoverDIDOpts.nextUpdatePublicKey.isNone then
    .error "next update public key is required"
  else if recoverDIDOpts.signingKey.isNone then
    .error "signing key is required"
  else .ok ()

/-- getEndpoint (client.go:213-235): fail when both the domain and the
explicit endpoint list are empty; when a domain is present, discover
endpoints for it (replacing the explicit list) and fail on a discovery
error or an empty discovery result; return the first endpoint's URL.
The second component records the discovery calls performed. -/
def getEndpoint (env : Env) (domain : String)
    (sidetreeEndpoints : List Endpoint) :
    Except String String × List Event :=
  if domain = "" ∧ sidetreeEndpoints.length = 0 then
    (.error "domain is empty and sidetree endpoints is empty", [])
  else
    let endpoints := sidetreeEndpoints
    if domain ≠ "" then
      match env.getEndpoints domain with
      | .error e =>
        (.error ("failed to get endpoints: " ++ e), [Event.endpointResolution domain])
      | .ok endpoints =>
        if endpoints.length = 0 then
          (.error "list of endpoints is empty", [Event.endpointResolution domain])
        else
          (.ok (endpoints.headD ⟨""⟩).url, [Event.endpointResolution domain])
    else
      (.ok (endpoints.headD ⟨""⟩).url, [])

/-- UpdateDID (client.go:88-124), with the list of external interactions
(endpoint resolution, config fetch, network send) it performed. -/
def UpdateDID (env : Env) (did domain : String) (updateDIDOpts : UpdateOpts) :
    Except String Unit × List Event :=
  if updateDIDOpts.signingKey.isNone then
    (.error "signing public key is required", [])
  else if updateDIDOpts.nextUpdatePublicKey.isNone then
    (.error "next update public key is required", [])
  else
    match getEndpoint env domain updateDIDOpts.sidetreeEndpoints with
    | (.error e, events) => (.error e, events)
    | (.ok sidetreeEndpoint, events) =>
      match env.getSidetreeConfig sidetreeEndpoint with
      | .error e => (.error e, events ++ [Event.configFetch sidetreeEndpoint])
      | .ok sidetreeConfig =>
        match buildUpdateRequest env did sidetreeConfig updateDIDOpts with
        | .error e =>
          (.error ("failed to build update request: " ++ e),
           events ++ [Event.configFetch sidetreeEndpoint])
        | .ok req =>
          match env.sendRequest req sidetreeEndpoint with
          | .error e =>
            (.error ("failed to send create sidetree request: " ++ e),
             events ++ [Event.configFetch sidetreeEndpoint,
                        Event.networkSend sidetreeEndpoint])
          | .ok _ =>
            (.ok (),
             events ++ [Event.configFetch sidetreeEndpoint,
                        Event.networkSend sidetreeEndpoint])

/-- RecoverDID (client.go:127-160), with the list of external interactions
it performed. -/
def RecoverDID (env : Env) (did domain : String) (recoverDIDOpts : RecoverOpts) :
    Except String Unit × List Event :=
  match validateRecoverReq recoverDIDOpts with
  | .error e => (.error e, [])
  | .ok _ =>
    match getEndpoint env domain recoverDIDOpts.sidetreeEndpoints with
    | (.error e, events) => (.error e, events)
    | (.ok sidetreeEndpoint, events) =>
      match env.getSidetreeConfig sidetreeEndpoint with
      | .error e => (.error e, events ++ [Event.configFetch sidetreeEndpoint])
      | .ok sidetreeConfig =>
        match buildRecoverRequest env did sidetreeConfig recoverDIDOpts with
        | .error e =>
          (.error ("failed to build sidetree request: " ++ e),
           events ++ [Event.configFetch sidetreeEndpoint])
        | .ok req =>
          match env.sendRequest req sidetreeEndpoint with
          | .error e =>
            (.error ("failed to send recover sidetree request: " ++ e),
             events ++ [Event.configFetch sidetreeEndpoint,
                        Event.networkSend sidetreeEndpoint])
          | .ok _ =>
            (.ok (),
             events ++ [Event.configFetch sidetreeEndpoint,
                        Event.networkSend sidetreeEndpoint])

/-- DeactivateDID (client.go:163-195), with the list of external
interactions it performed. -/
def DeactivateDID (env : Env) (did domain : String)
    (deactivateDIDOpts : DeactivateOpts) :
    Except String Unit × List Event :=
  if deactivateDIDOpts.signingKey.isNone then
    (.error "signing key is required", [])
  else
    match getEndpoint env domain deactivateDIDOpts.sidetreeEndpoints with
    | (.error e, events) => (.error e, events)
    | (.ok sidetreeEndpoint, events) =>
      match env.getSidetreeConfig sidetreeEndpoint with
      | .error e => (.error e, events ++ [Event.configFetch sidetreeEndpoint])
      | .ok sidetreeConfig =>
        match buildDeactivateRequest env did sidetreeConfig deactivateDIDOpts with
        | .error e =>
          (.error ("failed to build sidetree request: " ++ e),
           events ++ [Event.configFetch sidetreeEndpoint])
        | .ok req =>
          match env.sendRequest req sidetreeEndpoint with
          | .error e =>
            (.error ("failed to send deactivate sidetree request: " ++ e),
             events ++ [Event.configFetch sidetreeEndpoint,
                        Event.networkSend sidetreeEndpoint])
          | .ok _ =>
            (.ok (),
             events ++ [Event.configFetch sidetreeEndpoint,
                        Event.networkSend sidetreeEndpoint])

/-- A concrete sample JWK used by the sample environment. -/
def sampleJWK : JWK := ⟨"EC", "P-256", "xval", "yval"⟩

/-- A concrete environment in which every external collaborator succeeds;
used to instantiate the theorems at concrete inputs. -/
def sampleEnv : Env where
  getEndpoints := fun domain => .ok [⟨"https://node.example/" ++ domain⟩]
  getSidetreeConfig := fun _ => .ok ⟨18⟩
  sendRequest := fun _ _ => .ok []
  getPublicKeyJWK := fun k =>
    match k with
    | none => .error "unknown key type"
    | some p => .ok ⟨"EC", "P-256", "x" ++ toString p.data.length, "y"⟩
  getCommitment := fun jwk code => .ok ("commitment-" ++ jwk.x ++ toString code)
  getRevealValue := fun jwk code => .ok ("reveal-" ++ jwk.x ++ toString code)
  parseJWK := fun v => if v = [123, 125] then some sampleJWK else none
  jwkPublic := fun jwk => jwk
  getValueFromJWK := fun _ => .ok [7, 7, 7]
  docJSONBytes := fun _ => .ok "docbytes"
  marshalIDs := fun ids => .ok (String.intercalate "," ids)
  newRemovePublicKeysPatch := fun s => .ok s
  newRemoveServiceEndpointsPatch := fun s => .ok s
  marshalRawServices := fun _ => .ok "services"
  newAddServiceEndpointsPatch := fun s => .ok s
  populateRawPublicKeys := fun keys => .ok (keys.map (fun k => k.id))
  marshalRawPublicKeys := fun l => .ok (String.intercalate "," l)
  newAddPublicKeysPatch := fun s => .ok s
  newUpdateRequest := fun _ => .ok [1]
  newDeactivateRequest := fun _ => .ok [2]
  newRecoverRequest := fun _ => .ok [3]

/-- A concrete ed25519 signing key. -/
def samplePrivKey : PrivKey := PrivKey.ed25519Key 1 ⟨[5]⟩

/-- Concrete update options: signing key and next-update key present, no
explicit reveal value, no add/remove collections. -/
def sampleUpdateOpts : UpdateOpts where
  signingKey := some samplePrivKey
  signingKeyID := "key-1"
  nextUpdatePublicKey := some ⟨[6]⟩
  revealValue := ""
  removePublicKeys := []
  removeServices := []
  addServices := []
  addPublicKeys := []
  sidetreeEndpoints := []

/-- If a colon occurs in the list, suffixAfterLastColon finds one. -/
lemma isSome_suffixAfterLastColon {l : List Char} (h : ':' ∈ l) :
    (suffixAfterLastColon l).isSome := by
  induction l with
  | nil => simp at h
  | cons c rest ih =>
    unfold suffixAfterLastColon
    cases hsac : suffixAfterLastColon rest with
    | some suf => simp
    | none =>
      rcases List.mem_cons.mp h with hc | hm
      · simp [← hc]
      · have hsome := ih hm
        rw [hsac] at hsome
        simp at hsome

/-- If no colon occurs in the list, suffixAfterLastColon finds none. -/
lemma suffixAfterLastColon_eq_none {l : List Char} (h : ':' ∉ l) :
    suffixAfterLastColon l = none := by
  induction l with
  | nil => rfl
  | cons c rest ih =>
    rw [List.mem_cons] at h
    push_neg at h
    unfold suffixAfterLastColon
    rw [ih h.2, if_neg (Ne.symm h.1)]

/-- A successful suffixAfterLastColon result is what follows the last
colon: the input splits as pre ++ colon ++ suffix with no colon in the
suffix. -/
lemma suffixAfterLastColon_decomp (l : List Char) :
    ∀ suf, suffixAfterLastColon l = some suf →
      ∃ pre, l = pre ++ ':' :: suf ∧ ':' ∉ suf := by
  induction l with
  | nil => intro suf h; simp [suffixAfterLastColon] at h
  | cons c rest ih =>
    intro suf h
    unfold suffixAfterLastColon at h
    cases hsac : suffixAfterLastColon rest with
    | some suf0 =>
      rw [hsac] at h
      injection h with h
      subst h
      obtain ⟨pre, hpre, hnot⟩ := ih suf0 hsac
      exact ⟨c :: pre, by rw [hpre]; rfl, hnot⟩
    | none =>
      rw [hsac] at h
      by_cases hc : c = ':'
      · rw [if_pos hc] at h
        injection h with h
        subst h
        refine ⟨[], by rw [hc]; rfl, ?_⟩
        intro hmem
        have hsome := isSome_suffixAfterLastColon hmem
        rw [hsac] at hsome
        simp at hsome
      · rw [if_neg hc] at h
        cases h

/-- A list ending in a colon has the empty list after its last colon. -/
lemma suffixAfterLastColon_append_colon (pre : List Char) :
    suffixAfterLastColon (pre ++ [':']) = some [] := by
  induction pre with
  | nil => rfl
  | cons c rest ih =>
    simp only [List.cons_append]
    unfold suffixAfterLastColon
    rw [ih]

/-- Claim C3: getUniqueSuffix returns the substring after the last colon
whenever the input contains a colon (in particular on "did:method:abc123"
it returns "abc123"), and returns an error when the input contains no
colon (in particular on "noColonHere"). -/
theorem claim_C3_getUniqueSuffix :
    (∀ id : String, ':' ∈ id.data →
      ∃ suf pre, getUniqueSuffix id = .ok (String.mk suf) ∧
        id.data = pre ++ ':' :: suf ∧ ':' ∉ suf) ∧
    (∀ id : String, ':' ∉ id.data →
      getUniqueSuffix id =
        .error ("unique suffix not provided in id [" ++ id ++ "]")) ∧
    getUniqueSuffix "did:method:abc123" = .ok "abc123" ∧
    getUniqueSuffix "noColonHere" =
      .error "unique suffix not provided in id [noColonHere]" := by
  refine ⟨?_, ?_, ?_, ?_⟩
  · intro id h
    have hs := isSome_suffixAfterLastColon (l := id.data) h
    cases hsac : suffixAfterLastColon id.data with
    | none => rw [hsac] at hs; simp at hs
    | some suf =>
      obtain ⟨pre, hpre, hnot⟩ := suffixAfterLastColon_decomp id.data suf hsac
      exact ⟨suf, pre, by unfold getUniqueSuffix; rw [hsac], hpre, hnot⟩
  · intro id h
    unfold getUniqueSuffix
    rw [suffixAfterLastColon_eq_none h]
  · rfl
  · rfl

/-- Witness for claim C3 at the two concrete inputs of the claim. -/
theorem claim_C3_witness :
    (∃ suf pre, getUniqueSuffix "did:method:abc123" = .ok (String.mk suf) ∧
      (String.data "did:method:abc123") = pre ++ ':' :: suf ∧ ':' ∉ suf) ∧
    getUniqueSuffix "noColonHere" =
      .error "unique suffix not provided in id [noColonHere]" :=
  ⟨claim_C3_getUniqueSuffix.1 "did:method:abc123" (by decide),
   claim_C3_getUniqueSuffix.2.1 "noColonHere" (by decide)⟩

/-- Claim C10: a DID string ending in a colon makes getUniqueSuffix succeed
with the empty suffix (in particular on "did:method:"), and such an empty
suffix flows into a built update operation request. -/
theorem claim_C10_trailing_colon :
    (∀ (id : String) (pre : List Char), id.data = pre ++ [':'] →
      getUniqueSuffix id = .ok "") ∧
    getUniqueSuffix "did:method:" = .ok "" ∧
    (∃ info, buildUpdateRequestInfo sampleEnv "did:method:" ⟨18⟩ sampleUpdateOpts =
        .ok info ∧ info.didSuffix = "") := by
  refine ⟨?_, ?_, ?_⟩
  · intro id pre h
    unfold getUniqueSuffix
    rw [h, suffixAfterLastColon_append_colon]
  · rfl
  · exact ⟨_, rfl, rfl⟩

/-- Witness for claim C10 at the concrete input "did:method:". -/
theorem claim_C10_witness :
    getUniqueSuffix "did:method:" = .ok "" :=
  claim_C10_trailing_colon.1 "did:method:" (String.data "did:method") (by decide)

/-- Claim C4: getSigner maps an elliptic-curve P-256 private key (whose
public JWK derivation succeeds) to an ES256 signer together with the key's
public JWK, an Ed25519 private key to an EdDSA signer with its public JWK,
and rejects every other dynamic key type with the unsupported-key error
"key not supported". -/
theorem claim_C4_getSigner :
    (∀ (env : Env) (d : Nat) (pub : PubKeyVal) (keyID : String) (jwk : JWK),
      env.getPublicKeyJWK (some pub) = .ok jwk →
      getSigner env (some (PrivKey.ecdsaKey "P-256" d pub)) keyID =
        .ok (⟨PrivKey.ecdsaKey "P-256" d pub, "ES256", keyID⟩, jwk)) ∧
    (∀ (env : Env) (d : Nat) (pub : PubKeyVal) (keyID : String) (jwk : JWK),
      env.getPublicKeyJWK (some pub) = .ok jwk →
      getSigner env (some (PrivKey.ed25519Key d pub)) keyID =
        .ok (⟨PrivKey.ed25519Key d pub, "EdDSA", keyID⟩, jwk)) ∧
    (∀ (env : Env) (descr keyID : String),
      getSigner env (some (PrivKey.otherKey descr)) keyID =
        .error "key not supported") := by
  refine ⟨?_, ?_, ?_⟩
  · intro env d pub keyID jwk h
    simp [getSigner, h]
  · intro env d pub keyID jwk h
    simp [getSigner, h]
  · intro env descr keyID
    rfl

/-- Witness for claim C4 at concrete P-256, Ed25519 and unsupported keys. -/
theorem claim_C4_witness :
    getSigner sampleEnv (some (PrivKey.ecdsaKey "P-256" 3 ⟨[5]⟩)) "kid" =
      .ok (⟨PrivKey.ecdsaKey "P-256" 3 ⟨[5]⟩, "ES256", "kid"⟩,
           ⟨"EC", "P-256", "x1", "y"⟩) ∧
    getSigner sampleEnv (some (PrivKey.ed25519Key 1 ⟨[5]⟩)) "kid" =
      .ok (⟨PrivKey.ed25519Key 1 ⟨[5]⟩, "EdDSA", "kid"⟩,
           ⟨"EC", "P-256", "x1", "y"⟩) ∧
    getSigner sampleEnv (some (PrivKey.otherKey "rsa")) "kid" =
      .error "key not supported" :=
  ⟨claim_C4_getSigner.1 sampleEnv 3 ⟨[5]⟩ "kid" ⟨"EC", "P-256", "x1", "y"⟩ (by rfl),
   claim_C4_getSigner.2.1 sampleEnv 1 ⟨[5]⟩ "kid" ⟨"EC", "P-256", "x1", "y"⟩ (by rfl),
   claim_C4_getSigner.2.2 sampleEnv "rsa" "kid"⟩

/-- Claim C1: defaultRevealValue is a total function into strings (so it
never surfaces an error to its caller): it returns the empty string exactly
when the underlying reveal-value derivation fails and the derived value
when it succeeds; and in the update, deactivate and recover builders the
reveal value placed into the request is the caller-supplied one whenever
that is non-empty, the default being computed only for an empty
caller-supplied value. -/
theorem claim_C1_defaultRevealValue :
    (∀ (env : Env) (jwk : JWK) (alg : Nat) (e : String),
      env.getRevealValue jwk alg = .error e →
      defaultRevealValue env jwk alg = "") ∧
    (∀ (env : Env) (jwk : JWK) (alg : Nat) (v : String),
      env.getRevealValue jwk alg = .ok v →
      defaultRevealValue env jwk alg = v) ∧
    (∀ (env : Env) (did : String) (cfg : SidetreeConfig) (opts : UpdateOpts)
       (nk : JWK) (cm : String) (sg : Signer) (uk : JWK) (ps : List Patch)
       (ds : String),
      env.getPublicKeyJWK opts.nextUpdatePublicKey = .ok nk →
      env.getCommitment nk cfg.multiHashAlgorithm = .ok cm →
      getSigner env opts.signingKey opts.signingKeyID = .ok (sg, uk) →
      createUpdatePatches env opts = .ok ps →
      getUniqueSuffix did = .ok ds →
      buildUpdateRequestInfo env did cfg opts =
        .ok { didSuffix := ds,
              revealValue :=
                if opts.revealValue = "" then
                  defaultRevealValue env uk cfg.multiHashAlgorithm
                else opts.revealValue,
              updateCommitment := cm, updateKey := uk, patches := ps,
              multihashCode := cfg.multiHashAlgorithm, signer := sg }) ∧
    (∀ (env : Env) (did : String) (cfg : SidetreeConfig) (opts : DeactivateOpts)
       (sg : Signer) (pk : JWK) (ds : String),
      getSigner env opts.signingKey opts.signingKeyID = .ok (sg, pk) →
      getUniqueSuffix did = .ok ds →
      buildDeactivateRequestInfo env did cfg opts =
        .ok { didSuffix := ds,
              revealValue :=
                if opts.revealValue = "" then
                  defaultRevealValue env pk cfg.multiHashAlgorithm
                else opts.revealValue,
              recoveryKey := pk, signer := sg }) ∧
    (∀ (env : Env) (did : String) (cfg : SidetreeConfig) (opts : RecoverOpts)
       (pks : List PublicKey) (db rc uc : String) (sg : Signer) (rk : JWK)
       (ds : String),
      unwrapAll env opts.publicKeys = .ok pks →
      env.docJSONBytes ⟨pks, opts.services⟩ = .ok db →
      getCommitmentPair env cfg opts = .ok (rc, uc) →
      getSigner env opts.signingKey opts.signingKeyID = .ok (sg, rk) →
      getUniqueSuffix did = .ok ds →
      buildRecoverRequestInfo env did cfg opts =
        .ok { didSuffix := ds,
              revealValue :=
                if opts.revealValue = "" then
                  defaultRevealValue env rk cfg.multiHashAlgorithm
                else opts.revealValue,
              opaqueDocument := db, recoveryCommitment := rc,
              updateCommitment := uc,
              multihashCode := cfg.multiHashAlgorithm,
              recoveryKey := rk, signer := sg }) := by
  refine ⟨?_, ?_, ?_, ?_, ?_⟩
  · intro env jwk alg e h
    simp [defaultRevealValue, h]
  · intro env jwk alg v h
    simp [defaultRevealValue, h]
  · intro env did cfg opts nk cm sg uk ps ds h1 h2 h3 h4 h5
    simp [buildUpdateRequestInfo, h1, h2, h3, h4, h5]
  · intro env did cfg opts sg pk ds h1 h2
    simp [buildDeactivateRequestInfo, h1, h2]
  · intro env did cfg opts pks db rc uc sg rk ds h1 h2 h3 h4 h5
    simp [buildRecoverRequestInfo, h1, h2, h3, h4, h5]

/-- Concrete deactivate options with a signing key and no explicit reveal
value. -/
def sampleDeactivateOpts : DeactivateOpts where
  signingKey := some samplePrivKey
  signingKeyID := "key-1"
  revealValue := ""
  sidetreeEndpoints := []

/-- Concrete recover options with all required keys and no explicit reveal
value. -/
def sampleRecoverOpts : RecoverOpts where
  signingKey := some samplePrivKey
  signingKeyID := "key-1"
  nextRecoveryPublicKey := some ⟨[4]⟩
  nextUpdatePublicKey := some ⟨[6]⟩
  revealValue := ""
  publicKeys := []
  services := []
  sidetreeEndpoints := []

/-- Witness for claim C1: the sample environment and options instantiate
every hypothesis of the claim theorem. -/
theorem claim_C1_witness :
    defaultRevealValue sampleEnv sampleJWK 18 = "reveal-xval18" ∧
    buildUpdateRequestInfo sampleEnv "did:ex:abc" ⟨18⟩ sampleUpdateOpts =
      .ok { didSuffix := "abc",
            revealValue :=
              if sampleUpdateOpts.revealValue = "" then
                defaultRevealValue sampleEnv ⟨"EC", "P-256", "x1", "y"⟩ 18
              else sampleUpdateOpts.revealValue,
            updateCommitment := "commitment-x118",
            updateKey := ⟨"EC", "P-256", "x1", "y"⟩, patches := [],
            multihashCode := 18,
            signer := ⟨samplePrivKey, "EdDSA", "key-1"⟩ } ∧
    buildDeactivateRequestInfo sampleEnv "did:ex:abc" ⟨18⟩ sampleDeactivateOpts =
      .ok { didSuffix := "abc",
            revealValue :=
              if sampleDeactivateOpts.revealValue = "" then
                defaultRevealValue sampleEnv ⟨"EC", "P-256", "x1", "y"⟩ 18
              else sampleDeactivateOpts.revealValue,
            recoveryKey := ⟨"EC", "P-256", "x1", "y"⟩,
            signer := ⟨samplePrivKey, "EdDSA", "key-1"⟩ } ∧
    buildRecoverRequestInfo sampleEnv "did:ex:abc" ⟨18⟩ sampleRecoverOpts =
      .ok { didSuffix := "abc",
            revealValue :=
              if sampleRecoverOpts.revealValue = "" then
                defaultRevealValue sampleEnv ⟨"EC", "P-256", "x1", "y"⟩ 18
              else sampleRecoverOpts.revealValue,
            opaqueDocument := "docbytes",
            recoveryCommitment := "commitment-x118",
            updateCommitment := "commitment-x118",
            multihashCode := 18,
            recoveryKey := ⟨"EC", "P-256", "x1", "y"⟩,
            signer := ⟨samplePrivKey, "EdDSA", "key-1"⟩ } :=
  ⟨claim_C1_defaultRevealValue.2.1 sampleEnv sampleJWK 18 "reveal-xval18" (by rfl),
   claim_C1_defaultRevealValue.2.2.1 sampleEnv "did:ex:abc" ⟨18⟩ sampleUpdateOpts
     ⟨"EC", "P-256", "x1", "y"⟩ "commitment-x118"
     ⟨samplePrivKey, "EdDSA", "key-1"⟩ ⟨"EC", "P-256", "x1", "y"⟩ [] "abc"
     (by rfl) (by rfl) (by rfl) (by rfl) (by rfl),
   claim_C1_defaultRevealValue.2.2.2.1 sampleEnv "did:ex:abc" ⟨18⟩
     sampleDeactivateOpts ⟨samplePrivKey, "EdDSA", "key-1"⟩
     ⟨"EC", "P-256", "x1", "y"⟩ "abc" (by rfl) (by rfl),
   claim_C1_defaultRevealValue.2.2.2.2 sampleEnv "did:ex:abc" ⟨18⟩
     sampleRecoverOpts [] "docbytes" "commitment-x118" "commitment-x118"
     ⟨samplePrivKey, "EdDSA", "key-1"⟩ ⟨"EC", "P-256", "x1", "y"⟩ "abc"
     (by rfl) (by rfl) (by rfl) (by rfl) (by rfl)⟩

/-- Claim C2: createUpdatePatches emits no patch for an empty category and
exactly one patch per non-empty category, in the fixed order
remove-public-keys, remove-services, add-services, add-public-keys; each
per-category constructor yields a patch of its own category; and a
failure in a (non-empty) category aborts assembly with that category's
error, provided every earlier category was empty or succeeded. -/
theorem claim_C2_createUpdatePatches :
    (∀ (env : Env) (opts : UpdateOpts) (p1 p2 p3 p4 : Patch),
      createRemovePublicKeysPatch env opts = .ok p1 →
      createRemoveServicesPatch env opts = .ok p2 →
      createAddServicesPatch env opts = .ok p3 →
      createAddPublicKeysPatch env opts = .ok p4 →
      createUpdatePatches env opts = .ok
        ((if opts.removePublicKeys.length ≠ 0 then [p1] else []) ++
         (if opts.removeServices.length ≠ 0 then [p2] else []) ++
         (if opts.addServices.length ≠ 0 then [p3] else []) ++
         (if opts.addPublicKeys.length ≠ 0 then [p4] else []))) ∧
    (∀ (env : Env) (opts : UpdateOpts) (p : Patch),
      (createRemovePublicKeysPatch env opts = .ok p →
        ∃ s, p = Patch.removePublicKeys s) ∧
      (createRemoveServicesPatch env opts = .ok p →
        ∃ s, p = Patch.removeServices s) ∧
      (createAddServicesPatch env opts = .ok p →
        ∃ s, p = Patch.addServices s) ∧
      (createAddPublicKeysPatch env opts = .ok p →
        ∃ s, p = Patch.addPublicKeys s)) ∧
    (∀ (env : Env) (opts : UpdateOpts) (e : String),
      opts.removePublicKeys.length ≠ 0 →
      createRemovePublicKeysPatch env opts = .error e →
      createUpdatePatches env opts = .error e) ∧
    (∀ (env : Env) (opts : UpdateOpts) (p1 : Patch) (e : String),
      (opts.removePublicKeys.length = 0 ∨
        createRemovePublicKeysPatch env opts = .ok p1) →
      opts.removeServices.length ≠ 0 →
      createRemoveServicesPatch env opts = .error e →
      createUpdatePatches env opts = .error e) ∧
    (∀ (env : Env) (opts : UpdateOpts) (p1 p2 : Patch) (e : String),
      (opts.removePublicKeys.length = 0 ∨
        createRemovePublicKeysPatch env opts = .ok p1) →
      (opts.removeServices.length = 0 ∨
        createRemoveServicesPatch env opts = .ok p2) →
      opts.addServices.length ≠ 0 →
      createAddServicesPatch env opts = .error e →
      createUpdatePatches env opts = .error e) ∧
    (∀ (env : Env) (opts : UpdateOpts) (p1 p2 p3 : Patch) (e : String),
      (opts.removePublicKeys.length = 0 ∨
        createRemovePublicKeysPatch env opts = .ok p1) →
      (opts.removeServices.length = 0 ∨
        createRemoveServicesPatch env opts = .ok p2) →
      (opts.addServices.length = 0 ∨
        createAddServicesPatch env opts = .ok p3) →
      opts.addPublicKeys.length ≠ 0 →
      createAddPublicKeysPatch env opts = .error e →
      createUpdatePatches env opts = .error e) := by
  refine ⟨?_, ?_, ?_, ?_, ?_, ?_⟩
  · intro env opts p1 p2 p3 p4 h1 h2 h3 h4
    by_cases c1 : opts.removePublicKeys.length = 0 <;>
      by_cases c2 : opts.removeServices.length = 0 <;>
        by_cases c3 : opts.addServices.length = 0 <;>
          by_cases c4 : opts.addPublicKeys.length = 0 <;>
            simp [createUpdatePatches, c1, c2, c3, c4, h1, h2, h3, h4]
  · intro env opts p
    refine ⟨?_, ?_, ?_, ?_⟩
    · intro h
      unfold createRemovePublicKeysPatch at h
      split at h
      · cases h
      · split at h
        · cases h
        · injection h with h
          exact ⟨_, h.symm⟩
    · intro h
      unfold createRemoveServicesPatch at h
      split at h
      · cases h
      · split at h
        · cases h
        · injection h with h
          exact ⟨_, h.symm⟩
    · intro h
      unfold createAddServicesPatch at h
      split at h
      · cases h
      · split at h
        · cases h
        · injection h with h
          exact ⟨_, h.symm⟩
    · intro h
      unfold createAddPublicKeysPatch at h
      split at h
      · cases h
      · split at h
        · cases h
        · split at h
          · cases h
          · injection h with h
            exact ⟨_, h.symm⟩
  · intro env opts e hlen h
    simp [createUpdatePatches, hlen, h]
  · intro env opts p1 e h1 hlen h
    rcases h1 with h1 | h1 <;>
      by_cases c1 : opts.removePublicKeys.length = 0 <;>
        simp_all [createUpdatePatches]
  · intro env opts p1 p2 e h1 h2 hlen h
    rcases h1 with h1 | h1 <;> rcases h2 with h2 | h2 <;>
      by_cases c1 : opts.removePublicKeys.length = 0 <;>
        by_cases c2 : opts.removeServices.length = 0 <;>
          simp_all [createUpdatePatches]
  · intro env opts p1 p2 p3 e h1 h2 h3 hlen h
    rcases h1 with h1 | h1 <;> rcases h2 with h2 | h2 <;>
      rcases h3 with h3 | h3 <;>
        by_cases c1 : opts.removePublicKeys.length = 0 <;>
          by_cases c2 : opts.removeServices.length = 0 <;>
            by_cases c3 : opts.addServices.length = 0 <;>
              simp_all [createUpdatePatches]

/-- Concrete update options with every add/remove category non-empty. -/
def sampleUpdateOptsFull : UpdateOpts where
  signingKey := some samplePrivKey
  signingKeyID := "key-1"
  nextUpdatePublicKey := some ⟨[6]⟩
  revealValue := ""
  removePublicKeys := ["rk1"]
  removeServices := ["rs1"]
  addServices := [⟨"svc1", "type1", "https://svc.example"⟩]
  addPublicKeys := [⟨"pk1", "JwsVerificationKey2020", false, false, [9]⟩]
  sidetreeEndpoints := []

/-- An environment in which the remove-services patch constructor fails. -/
def failingRemoveServicesEnv : Env :=
  { sampleEnv with
    newRemoveServiceEndpointsPatch := fun _ => .error "bad remove services" }

/-- Witness for claim C2: concrete full options give one patch per
category in the fixed order, and a failing remove-services category aborts
assembly with its error. -/
theorem claim_C2_witness :
    createUpdatePatches sampleEnv sampleUpdateOptsFull = .ok
      ((if sampleUpdateOptsFull.removePublicKeys.length ≠ 0 then
          [Patch.removePublicKeys "rk1"] else []) ++
       (if sampleUpdateOptsFull.removeServices.length ≠ 0 then
          [Patch.removeServices "rs1"] else []) ++
       (if sampleUpdateOptsFull.addServices.length ≠ 0 then
          [Patch.addServices "services"] else []) ++
       (if sampleUpdateOptsFull.addPublicKeys.length ≠ 0 then
          [Patch.addPublicKeys "pk1"] else [])) ∧
    (∃ s, Patch.removePublicKeys "rk1" = Patch.removePublicKeys s) ∧
    createUpdatePatches failingRemoveServicesEnv sampleUpdateOptsFull =
      .error "bad remove services" :=
  ⟨claim_C2_createUpdatePatches.1 sampleEnv sampleUpdateOptsFull
     (Patch.removePublicKeys "rk1") (Patch.removeServices "rs1")
     (Patch.addServices "services") (Patch.addPublicKeys "pk1")
     (by rfl) (by rfl) (by rfl) (by rfl),
   (claim_C2_createUpdatePatches.2.1 sampleEnv sampleUpdateOptsFull
     (Patch.removePublicKeys "rk1")).1 (by rfl),
   claim_C2_createUpdatePatches.2.2.2.1 failingRemoveServicesEnv
     sampleUpdateOptsFull (Patch.removePublicKeys "rk1") "bad remove services"
     (Or.inr (by rfl)) (by decide) (by rfl)⟩

/-- A successful unwrapAll run unwraps the keys pointwise. -/
lemma unwrapAll_ok_forall₂ (env : Env) : ∀ (l pks : List PublicKey),
    unwrapAll env l = .ok pks →
    List.Forall₂ (fun k k2 => unwrapPubKeyJWK env k = .ok k2) l pks := by
  intro l
  induction l with
  | nil =>
    intro pks h
    unfold unwrapAll at h
    injection h with h
    subst h
    exact List.Forall₂.nil
  | cons k rest ih =>
    intro pks h
    unfold unwrapAll at h
    split at h
    · cases h
    · rename_i parsedKey hpk
      split at h
      · cases h
      · rename_i parsedKeys hrest
        injection h with h
        subst h
        exact List.Forall₂.cons hpk (ih _ hrest)

/-- unwrapAll fails with the error of the first failing key, provided all
earlier keys unwrap successfully. -/
lemma unwrapAll_append_error (env : Env) (key : PublicKey)
    (post : List PublicKey) (e : String)
    (hk : unwrapPubKeyJWK env key = .error e) :
    ∀ pre : List PublicKey,
      (∀ k2 ∈ pre, ∃ r, unwrapPubKeyJWK env k2 = .ok r) →
      unwrapAll env (pre ++ key :: post) = .error e := by
  intro pre
  induction pre with
  | nil =>
    intro _
    simp [unwrapAll, hk]
  | cons k0 rest ih =>
    intro hpre
    obtain ⟨r, hr⟩ := hpre k0 (List.mem_cons_self k0 rest)
    have hrest := ih (fun k2 hm => hpre k2 (List.mem_cons_of_mem k0 hm))
    simp [unwrapAll, hr, hrest]

/-- Claim C5: in the recover builder, a supplied public key whose value
parses as a JWK has the JWK's public value substituted for its raw value
(keys that do not parse are kept unchanged), the substituted keys are the
ones serialized into the new DID document, and a JWK-looking value whose
public-value extraction fails aborts the whole build with that error. -/
theorem claim_C5_recover_jwk_unwrap :
    (∀ (env : Env) (key : PublicKey),
      env.parseJWK key.value = none →
      unwrapPubKeyJWK env key = .ok key) ∧
    (∀ (env : Env) (key : PublicKey) (jwk : JWK) (v : List Nat),
      env.parseJWK key.value = some jwk →
      env.getValueFromJWK (env.jwkPublic jwk) = .ok v →
      unwrapPubKeyJWK env key = .ok { key with value := v }) ∧
    (∀ (env : Env) (key : PublicKey) (jwk : JWK) (e : String),
      env.parseJWK key.value = some jwk →
      env.getValueFromJWK (env.jwkPublic jwk) = .error e →
      unwrapPubKeyJWK env key = .error e) ∧
    (∀ (env : Env) (did : String) (cfg : SidetreeConfig) (opts : RecoverOpts)
       (info : RecoverRequestInfo),
      buildRecoverRequestInfo env did cfg opts = .ok info →
      ∃ parsedKeys docBytes,
        unwrapAll env opts.publicKeys = .ok parsedKeys ∧
        List.Forall₂ (fun k k2 => unwrapPubKeyJWK env k = .ok k2)
          opts.publicKeys parsedKeys ∧
        env.docJSONBytes ⟨parsedKeys, opts.services⟩ = .ok docBytes ∧
        info.opaqueDocument = docBytes) ∧
    (∀ (env : Env) (did : String) (cfg : SidetreeConfig) (opts : RecoverOpts)
       (e : String),
      unwrapAll env opts.publicKeys = .error e →
      buildRecoverRequest env did cfg opts = .error e) ∧
    (∀ (env : Env) (did : String) (cfg : SidetreeConfig) (opts : RecoverOpts)
       (pre : List PublicKey) (key : PublicKey) (post : List PublicKey)
       (e : String),
      opts.publicKeys = pre ++ key :: post →
      (∀ k2 ∈ pre, ∃ r, unwrapPubKeyJWK env k2 = .ok r) →
      unwrapPubKeyJWK env key = .error e →
      buildRecoverRequest env did cfg opts = .error e) := by
  refine ⟨?_, ?_, ?_, ?_, ?_, ?_⟩
  · intro env key h
    simp [unwrapPubKeyJWK, h]
  · intro env key jwk v h1 h2
    simp [unwrapPubKeyJWK, h1, h2]
  · intro env key jwk e h1 h2
    simp [unwrapPubKeyJWK, h1, h2]
  · intro env did cfg opts info h
    simp only [buildRecoverRequestInfo] at h
    split at h
    · cases h
    · rename_i parsedKeys heq1
      split at h
      · cases h
      · rename_i docBytes heq2
        split at h
        · cases h
        · split at h
          · cases h
          · split at h
            · cases h
            · injection h with h
              subst h
              exact ⟨parsedKeys, docBytes, heq1,
                     unwrapAll_ok_forall₂ env _ _ heq1, heq2, rfl⟩
  · intro env did cfg opts e h
    simp [buildRecoverRequest, buildRecoverRequestInfo, h]
  · intro env did cfg opts pre key post e hsplit hpre hk
    have herr : unwrapAll env opts.publicKeys = .error e := by
      rw [hsplit]
      exact unwrapAll_append_error env key post e hk pre hpre
    simp [buildRecoverRequest, buildRecoverRequestInfo, herr]

/-- A public key whose value is the byte string that the sample
environment parses as a JWK. -/
def sampleJWKKey : PublicKey := ⟨"pkJ", "JwsVerificationKey2020", false, false, [123, 125]⟩

/-- A public key whose value does not parse as a JWK. -/
def sampleBinaryKey : PublicKey := ⟨"pkB", "Ed25519VerificationKey2018", false, false, [9]⟩

/-- An environment in which extracting the public value from a parsed JWK
fails. -/
def failingJWKEnv : Env :=
  { sampleEnv with getValueFromJWK := fun _ => .error "bad jwk value" }

/-- Concrete recover options whose supplied public key parses as a JWK. -/
def sampleRecoverOptsJWK : RecoverOpts :=
  { sampleRecoverOpts with publicKeys := [sampleJWKKey] }

/-- Witness for claim C5: a non-JWK key is kept unchanged, a JWK key has
its value substituted, and a JWK key whose value extraction fails aborts
the whole recover build with that error. -/
theorem claim_C5_witness :
    unwrapPubKeyJWK sampleEnv sampleBinaryKey = .ok sampleBinaryKey ∧
    unwrapPubKeyJWK sampleEnv sampleJWKKey =
      .ok { sampleJWKKey with value := [7, 7, 7] } ∧
    unwrapPubKeyJWK failingJWKEnv sampleJWKKey = .error "bad jwk value" ∧
    buildRecoverRequest failingJWKEnv "did:ex:abc" ⟨18⟩ sampleRecoverOptsJWK =
      .error "bad jwk value" :=
  ⟨claim_C5_recover_jwk_unwrap.1 sampleEnv sampleBinaryKey (by rfl),
   claim_C5_recover_jwk_unwrap.2.1 sampleEnv sampleJWKKey sampleJWK [7, 7, 7]
     (by rfl) (by rfl),
   claim_C5_recover_jwk_unwrap.2.2.1 failingJWKEnv sampleJWKKey sampleJWK
     "bad jwk value" (by rfl) (by rfl),
   claim_C5_recover_jwk_unwrap.2.2.2.2.2 failingJWKEnv "did:ex:abc" ⟨18⟩
     sampleRecoverOptsJWK [] sampleJWKKey [] "bad jwk value" (by rfl)
     (by simp) (by rfl)⟩

/-- Claim C6: RecoverDID with a nil next-recovery public key fails with
"next recovery public key is required" before any endpoint resolution,
config fetch or network call (the recorded interaction list is empty);
with that key present but a nil next-update public key it fails with
"next update public key is required"; and with both present but a nil
signing key it fails with "signing key is required", again with no
external interaction. -/
theorem claim_C6_recover_validation :
    (∀ (env : Env) (did domain : String) (opts : RecoverOpts),
      opts.nextRecoveryPublicKey = none →
      RecoverDID env did domain opts =
        (.error "next recovery public key is required", [])) ∧
    (∀ (env : Env) (did domain : String) (opts : RecoverOpts),
      opts.nextRecoveryPublicKey ≠ none →
      opts.nextUpdatePublicKey = none →
      RecoverDID env did domain opts =
        (.error "next update public key is required", [])) ∧
    (∀ (env : Env) (did domain : String) (opts : RecoverOpts),
      opts.nextRecoveryPublicKey ≠ none →
      opts.nextUpdatePublicKey ≠ none →
      opts.signingKey = none →
      RecoverDID env did domain opts =
        (.error "signing key is required", [])) := by
  refine ⟨?_, ?_, ?_⟩
  · intro env did domain opts h
    simp [RecoverDID, validateRecoverReq, h]
  · intro env did domain opts h1 h2
    obtain ⟨k, hk⟩ := Option.ne_none_iff_exists'.mp h1
    simp [RecoverDID, validateRecoverReq, hk, h2]
  · intro env did domain opts h1 h2 h3
    obtain ⟨k1, hk1⟩ := Option.ne_none_iff_exists'.mp h1
    obtain ⟨k2, hk2⟩ := Option.ne_none_iff_exists'.mp h2
    simp [RecoverDID, validateRecoverReq, hk1, hk2, h3]

/-- Recover options missing the next-recovery public key. -/
def sampleRecoverOptsNoRecoveryKey : RecoverOpts :=
  { sampleRecoverOpts with nextRecoveryPublicKey := none }

/-- Recover options missing only the next-update public key. -/
def sampleRecoverOptsNoUpdateKey : RecoverOpts :=
  { sampleRecoverOpts with nextUpdatePublicKey := none }

/-- Recover options missing only the signing key. -/
def sampleRecoverOptsNoSigner : RecoverOpts :=
  { sampleRecoverOpts with signingKey := none }

/-- Witness for claim C6 at concrete options missing each required key. -/
theorem claim_C6_witness :
    RecoverDID sampleEnv "did:ex:abc" "example.com" sampleRecoverOptsNoRecoveryKey =
      (.error "next recovery public key is required", []) ∧
    RecoverDID sampleEnv "did:ex:abc" "example.com" sampleRecoverOptsNoUpdateKey =
      (.error "next update public key is required", []) ∧
    RecoverDID sampleEnv "did:ex:abc" "example.com" sampleRecoverOptsNoSigner =
      (.error "signing key is required", []) :=
  ⟨claim_C6_recover_validation.1 sampleEnv "did:ex:abc" "example.com"
     sampleRecoverOptsNoRecoveryKey (by rfl),
   claim_C6_recover_validation.2.1 sampleEnv "did:ex:abc" "example.com"
     sampleRecoverOptsNoUpdateKey (by decide) (by rfl),
   claim_C6_recover_validation.2.2 sampleEnv "did:ex:abc" "example.com"
     sampleRecoverOptsNoSigner (by decide) (by decide) (by rfl)⟩

/-- Claim C7: UpdateDID with a nil signing key fails immediately with
"signing public key is required", and with a signing key but a nil
next-update public key it fails immediately with "next update public key
is required", in both cases with no endpoint resolution, config fetch or
network call and no retry (the recorded interaction list is empty);
DeactivateDID with a nil signing key likewise fails immediately with
"signing key is required". -/
theorem claim_C7_update_deactivate_validation :
    (∀ (env : Env) (did domain : String) (opts : UpdateOpts),
      opts.signingKey = none →
      UpdateDID env did domain opts =
        (.error "signing public key is required", [])) ∧
    (∀ (env : Env) (did domain : String) (opts : UpdateOpts),
      opts.signingKey ≠ none →
      opts.nextUpdatePublicKey = none →
      UpdateDID env did domain opts =
        (.error "next update public key is required", [])) ∧
    (∀ (env : Env) (did domain : String) (opts : DeactivateOpts),
      opts.signingKey = none →
      DeactivateDID env did domain opts =
        (.error "signing key is required", [])) := by
  refine ⟨?_, ?_, ?_⟩
  · intro env did domain opts h
    simp [UpdateDID, h]
  · intro env did domain opts h1 h2
    obtain ⟨k, hk⟩ := Option.ne_none_iff_exists'.mp h1
    simp [UpdateDID, hk, h2]
  · intro env did domain opts h
    simp [DeactivateDID, h]

/-- Update options missing the signing key. -/
def sampleUpdateOptsNoSigner : UpdateOpts :=
  { sampleUpdateOpts with signingKey := none }

/-- Update options missing only the next-update public key. -/
def sampleUpdateOptsNoNextKey : UpdateOpts :=
  { sampleUpdateOpts with nextUpdatePublicKey := none }

/-- Deactivate options missing the signing key. -/
def sampleDeactivateOptsNoSigner : DeactivateOpts :=
  { sampleDeactivateOpts with signingKey := none }

/-- Witness for claim C7 at concrete options missing each required key. -/
theorem claim_C7_witness :
    UpdateDID sampleEnv "did:ex:abc" "example.com" sampleUpdateOptsNoSigner =
      (.error "signing public key is required", []) ∧
    UpdateDID sampleEnv "did:ex:abc" "example.com" sampleUpdateOptsNoNextKey =
      (.error "next update public key is required", []) ∧
    DeactivateDID sampleEnv "did:ex:abc" "example.com" sampleDeactivateOptsNoSigner =
      (.error "signing key is required", []) :=
  ⟨claim_C7_update_deactivate_validation.1 sampleEnv "did:ex:abc" "example.com"
     sampleUpdateOptsNoSigner (by rfl),
   claim_C7_update_deactivate_validation.2.1 sampleEnv "did:ex:abc" "example.com"
     sampleUpdateOptsNoNextKey (by decide) (by rfl),
   claim_C7_update_deactivate_validation.2.2 sampleEnv "did:ex:abc" "example.com"
     sampleDeactivateOptsNoSigner (by rfl)⟩

/-- Claim C8: getEndpoint with empty domain and empty endpoint list fails
with "domain is empty and sidetree endpoints is empty"; with empty domain
and a non-empty explicit list it returns the first endpoint's URL without
invoking discovery; with a non-empty domain it returns the first
discovered endpoint's URL when discovery succeeds non-emptily, and fails
when discovery errors or returns zero endpoints. -/
theorem claim_C8_getEndpoint :
    (∀ env : Env, getEndpoint env "" [] =
      (.error "domain is empty and sidetree endpoints is empty", [])) ∧
    (∀ (env : Env) (ep : Endpoint) (rest : List Endpoint),
      getEndpoint env "" (ep :: rest) = (.ok ep.url, [])) ∧
    (∀ (env : Env) (domain : String) (eps : List Endpoint) (ep : Endpoint)
       (rest : List Endpoint),
      domain ≠ "" →
      env.getEndpoints domain = .ok (ep :: rest) →
      getEndpoint env domain eps =
        (.ok ep.url, [Event.endpointResolution domain])) ∧
    (∀ (env : Env) (domain : String) (eps : List Endpoint) (e : String),
      domain ≠ "" →
      env.getEndpoints domain = .error e →
      getEndpoint env domain eps =
        (.error ("failed to get endpoints: " ++ e),
         [Event.endpointResolution domain])) ∧
    (∀ (env : Env) (domain : String) (eps : List Endpoint),
      domain ≠ "" →
      env.getEndpoints domain = .ok [] →
      getEndpoint env domain eps =
        (.error "list of endpoints is empty",
         [Event.endpointResolution domain])) := by
  refine ⟨?_, ?_, ?_, ?_, ?_⟩
  · intro env
    rfl
  · intro env ep rest
    simp [getEndpoint]
  · intro env domain eps ep rest h1 h2
    simp [getEndpoint, h1, h2]
  · intro env domain eps e h1 h2
    simp [getEndpoint, h1, h2]
  · intro env domain eps h1 h2
    simp [getEndpoint, h1, h2]

/-- An environment in which discovery fails. -/
def failingDiscoveryEnv : Env :=
  { sampleEnv with getEndpoints := fun _ => .error "discovery down" }

/-- An environment in which discovery returns zero endpoints. -/
def emptyDiscoveryEnv : Env :=
  { sampleEnv with getEndpoints := fun _ => .ok [] }

/-- Witness for claim C8 at concrete domains, endpoint lists and
environments. -/
theorem claim_C8_witness :
    getEndpoint sampleEnv "" [] =
      (.error "domain is empty and sidetree endpoints is empty", []) ∧
    getEndpoint sampleEnv "" [⟨"https://endpointA"⟩] =
      (.ok "https://endpointA", []) ∧
    getEndpoint sampleEnv "example.com" [] =
      (.ok "https://node.example/example.com",
       [Event.endpointResolution "example.com"]) ∧
    getEndpoint failingDiscoveryEnv "example.com" [] =
      (.error "failed to get endpoints: discovery down",
       [Event.endpointResolution "example.com"]) ∧
    getEndpoint emptyDiscoveryEnv "example.com" [] =
      (.error "list of endpoints is empty",
       [Event.endpointResolution "example.com"]) :=
  ⟨claim_C8_getEndpoint.1 sampleEnv,
   claim_C8_getEndpoint.2.1 sampleEnv ⟨"https://endpointA"⟩ [],
   claim_C8_getEndpoint.2.2.1 sampleEnv "example.com" []
     ⟨"https://node.example/example.com"⟩ [] (by decide) (by rfl),
   claim_C8_getEndpoint.2.2.2.1 failingDiscoveryEnv "example.com" []
     "discovery down" (by decide) (by rfl),
   claim_C8_getEndpoint.2.2.2.2 emptyDiscoveryEnv "example.com" []
     (by decide) (by rfl)⟩

/-- Counterexample to claim C9: with a non-empty domain AND a non-empty
explicit endpoint list, getEndpoint invokes discovery and returns the
discovered endpoint's URL, not the explicit one, so the explicit list
does not bypass discovery "regardless of whether a domain was supplied". -/
theorem claim_C9_counterexample :
    getEndpoint sampleEnv "example.com" [⟨"https://explicit.example"⟩] =
      (.ok "https://node.example/example.com",
       [Event.endpointResolution "example.com"]) ∧
    "https://node.example/example.com" ≠ "https://explicit.example" :=
  ⟨rfl, by decide⟩

/-- Claim C9 (amended): a non-empty explicit endpoint list bypasses
discovery only when the domain is empty, in which case the endpoint is
taken from the explicit list with no discovery call; when a non-empty
domain is supplied, discovery is always invoked and the result is
independent of the explicit endpoint list. -/
theorem claim_C9_amended :
    (∀ (env : Env) (ep : Endpoint) (rest : List Endpoint),
      getEndpoint env "" (ep :: rest) = (.ok ep.url, [])) ∧
    (∀ (env : Env) (domain : String) (eps eps2 : List Endpoint),
      domain ≠ "" →
      getEndpoint env domain eps = getEndpoint env domain eps2) ∧
    (∀ (env : Env) (domain : String) (eps : List Endpoint),
      domain ≠ "" →
      (getEndpoint env domain eps).2 = [Event.endpointResolution domain]) := by
  refine ⟨?_, ?_, ?_⟩
  · intro env ep rest
    simp [getEndpoint]
  · intro env domain eps eps2 h
    simp [getEndpoint, h]
  · intro env domain eps h
    rcases henv : env.getEndpoints domain with e | l
    · simp [getEndpoint, h, henv]
    · by_cases hl : l.length = 0 <;> simp [getEndpoint, h, henv, hl]

/-- Witness for the amended claim C9 at a concrete environment, domain and
explicit endpoint list. -/
theorem claim_C9_witness :
    getEndpoint sampleEnv "" [⟨"https://explicit.example"⟩] =
      (.ok "https://explicit.example", []) ∧
    getEndpoint sampleEnv "example.com" [⟨"https://explicit.example"⟩] =
      getEndpoint sampleEnv "example.com" [] ∧
    (getEndpoint sampleEnv "example.com" [⟨"https://explicit.example"⟩]).2 =
      [Event.endpointResolution "example.com"] :=
  ⟨claim_C9_amended.1 sampleEnv ⟨"https://explicit.example"⟩ [],
   claim_C9_amended.2.1 sampleEnv "example.com" [⟨"https://explicit.example"⟩]
     [] (by decide),
   claim_C9_amended.2.2 sampleEnv "example.com" [⟨"https://explicit.example"⟩]
     (by decide)⟩

end TrustblocDID
